import Mathlib

/-!
Verification of the congressional bill simulator (src/bill_simulator.py and
src/bill_simulator2.py).  The deterministic state layer around the external
LLM oracle is embedded shallowly: the oracle call is a value of type
`Except String String` (error message or raw response text), `json.loads`
is an abstract parameter `String → Option Dict`, and all session-state
mutation of the Streamlit app is explicit state passing on `GameState`.
Numeric session fields are modelled as `ℚ` (Python uses ints and floats;
all the arithmetic here is exact on the values that occur).  Python's
builtin `max`/`min` are rendered by the executable `qmax`/`qmin` below.
-/

/-- Python `max(a, b)`. -/
def qmax (a b : ℚ) : ℚ := if a ≤ b then b else a

/-- Python `min(a, b)`. -/
def qmin (a b : ℚ) : ℚ := if a ≤ b then a else b

/-- Python `round` on an exact rational: round half to even. -/
def pyRound (q : ℚ) : ℤ :=
  if q - ⌊q⌋ < 1/2 then ⌊q⌋
  else if 1/2 < q - ⌊q⌋ then ⌊q⌋ + 1
  else if ⌊q⌋ % 2 = 0 then ⌊q⌋ else ⌊q⌋ + 1

/-- Python `str.lower` (ASCII case folding suffices for the texts involved). -/
def pyLower (s : String) : String := String.mk (s.toList.map Char.toLower)

/-- Does the second char list occur at the start of the first? -/
def startsWithL : List Char → List Char → Bool
  | _, [] => true
  | [], _ :: _ => false
  | a :: as, b :: bs => a == b && startsWithL as bs

/-- Does the second char list occur as a contiguous run inside the first?
(Python's `needle in hay` on strings.) -/
def containsSubL : List Char → List Char → Bool
  | [], needle => needle.isEmpty
  | a :: as, needle => startsWithL (a :: as) needle || containsSubL as needle

/-- Python `needle in hay` for strings. -/
def strContains (hay needle : String) : Bool :=
  containsSubL hay.toList needle.toList

/-- Player party, from the sidebar selectbox `your_party`. -/
inductive Party
  | Dem
  | Rep
deriving DecidableEq, BEq

/-- Chamber, from the sidebar selectbox `your_chamber`. -/
inductive Chamber
  | House
  | Senate
deriving DecidableEq, BEq

/-- District partisanship bucket, from the sidebar selectbox `district_lean`
(one of "D+10", "D+5", "EVEN", "R+5", "R+10"). -/
inductive Pvi
  | D10
  | D5
  | EVEN
  | R5
  | R10
deriving DecidableEq, BEq

/-- The literal string shown for each district-lean bucket; the code tests
these strings with substring checks ("D+" in district_lean, etc.). -/
def pviStr : Pvi → String
  | Pvi.D10 => "D+10"
  | Pvi.D5 => "D+5"
  | Pvi.EVEN => "EVEN"
  | Pvi.R5 => "R+5"
  | Pvi.R10 => "R+10"

/-- Immutable session configuration chosen in the sidebar:
chamber, party, district lean, and seat counts `chamber_D` / `chamber_R`. -/
structure Config where
  chamber : Chamber
  party : Party
  pvi : Pvi
  dSeats : ℕ
  rSeats : ℕ

/-- One row of the `st.session_state.trends` dataframe
(Turn, Support, Public, ReelectionRisk, ReelectionChance, ChamberProgress). -/
structure TrendRow where
  turn : ℕ
  support : ℚ
  publicApproval : ℚ
  reelection_risk : ℚ
  reelection_chance : ℚ
  chamber_progress : ℚ

/-- The mutable Streamlit session state of one game
(`st.session_state.turn`, `.support`, `.public`, `.chamber_progress`,
`.reelection_risk`, `.history`, `.trends`, `.game_over`, and the
`reconciliation_discussed` flag of bill_simulator.py). -/
structure GameState where
  turn : ℕ
  support : Option ℚ
  publicApproval : ℚ
  chamber_progress : ℚ
  reelection_risk : ℚ
  history : List (String × String)
  trends : List TrendRow
  game_over : Bool
  reconciliation_discussed : Bool

/-- The initial session state (lines 100–111 of bill_simulator.py,
lines 113–124 of bill_simulator2.py; the reconciliation flag is created
lazily with value `False` the first time `gpt_simulate` runs). -/
def initState : GameState :=
  { turn := 1
    support := none
    publicApproval := 50
    chamber_progress := 0
    reelection_risk := 0
    history := []
    trends := []
    game_over := false
    reconciliation_discussed := false }

/-- A decoded JSON object with integer values, as produced by `json.loads`
on the oracle's embedded record: an association list keyed by field name. -/
abbrev Dict := List (String × ℤ)

/-- Python dict lookup `data[k]`, as an `Option`. -/
def dictFind : Dict → String → Option ℤ
  | [], _ => none
  | (k', v) :: t, k => if k' = k then some v else dictFind t k

/-- The neutral all-zero delta record substituted on any decode failure
(`dict(support_change=0, public_change=0, chamber_progress_change=0,
reelection_risk=0)`). -/
def zeroDelta : Dict :=
  [("support_change", 0), ("public_change", 0),
   ("chamber_progress_change", 0), ("reelection_risk", 0)]

/-- The slice `text[text.index("\x7b") : text.rindex("\x7d") + 1]` of the
oracle response: the substring from the first opening brace to the last
closing brace, `none` when either brace is absent (Python raises
`ValueError`, which the surrounding `except` catches). -/
def extractJson (cs : List Char) : Option (List Char) :=
  match cs.findIdx? (fun c => c == '\x7b'), cs.reverse.findIdx? (fun c => c == '\x7d') with
  | some i, some jr =>
      let j := cs.length - 1 - jr
      some ((cs.drop i).take (j + 1 - i))
  | _, _ => none

/-- The parse-and-sanitize step shared by both variants' `gpt_simulate`
(bill_simulator.py lines 379–393, bill_simulator2.py lines 233–249).
`ld` stands for `json.loads` restricted to flat integer objects (`none`
models any `json.loads` exception or non-object result); the oracle call
is `Except.error e` when the OpenAI request raised `e`, otherwise
`Except.ok text` with the raw response text.  Returns the narrative and
the delta record, substituting `zeroDelta` on any failure. -/
def gptParse (ld : String → Option Dict) (oracle : Except String String) : String × Dict :=
  match oracle with
  | Except.error e => ("⚠️ GPT error: " ++ e, zeroDelta)
  | Except.ok text =>
    match extractJson text.toList with
    | none => (text, zeroDelta)
    | some cs =>
      match ld (String.mk cs) with
      | none => (text, zeroDelta)
      | some d => (text, d)

/-- Seat share of the player's party as computed in the submit handler of
bill_simulator.py (lines 492–495): `(chamber_D / (chamber_D + chamber_R)) * 100`
for a Democrat, the Republican analogue otherwise. -/
def party_share (cfg : Config) : ℚ :=
  (if cfg.party = Party.Dem then (cfg.dSeats : ℚ) else (cfg.rSeats : ℚ))
    / ((cfg.dSeats : ℚ) + (cfg.rSeats : ℚ)) * 100

/-- The dynamic realism cap on chamber support in bill_simulator.py
(line 496): `min(100, party_share + 5)`. -/
def support_cap (cfg : Config) : ℚ :=
  qmin 100 (party_share cfg + 5)

/-- The first-turn support baseline computed inside `gpt_simulate` of
bill_simulator.py (lines 154–174): the player's party seat share (with a
defensive guard replacing a zero seat total by 1), minus a fixed 12-point
realism offset, clamped to the band [20, 60], then rounded. -/
def baselineSupport (cfg : Config) : ℚ :=
  let total : ℚ := ((cfg.dSeats + cfg.rSeats : ℕ) : ℚ)
  let total := if total = 0 then 1 else total
  let share := (if cfg.party = Party.Dem then (cfg.dSeats : ℚ) else (cfg.rSeats : ℚ)) / total * 100
  ((pyRound (qmax 20 (qmin (share - 12) 60)) : ℤ) : ℚ)

/-- The persistent reconciliation flag update of bill_simulator.py
(lines 179–184): once the lowercased action text contains
"reconciliation", the flag is set and is never cleared afterwards. -/
def updateRecon (flag : Bool) (action : String) : Bool :=
  if strContains (pyLower action) "reconciliation" then true else flag

/-- The state mutations `gpt_simulate` of bill_simulator.py performs
before issuing the oracle call (lines 150–201): initialize `support` to
the baseline when it is still `None`, and update the reconciliation
flag from the action text. -/
def preSim (cfg : Config) (s : GameState) (action : String) : GameState :=
  let s1 := match s.support with
            | none => { s with support := some (baselineSupport cfg) }
            | some _ => s
  { s1 with reconciliation_discussed := updateRecon s1.reconciliation_discussed action }

/-- The base value of `calc_reelection_chance` (both variants): 50, plus 15
when the district lean string contains the player's party prefix, plus 5
when it contains "EVEN", minus 10 otherwise. -/
def baseAlign (p : Party) (v : Pvi) : ℚ :=
  if ((p == Party.Dem) && strContains (pviStr v) "D+")
      || ((p == Party.Rep) && strContains (pviStr v) "R+") then 50 + 15
  else if strContains (pviStr v) "EVEN" then 50 + 5
  else 50 - 10

/-- `calc_reelection_chance` (bill_simulator.py lines 400–409,
bill_simulator2.py lines 254–265): base + (public − 50) − risk, clamped
to [0, 100]. -/
def calc_reelection_chance (cfg : Config) (pub risk : ℚ) : ℚ :=
  qmax 0 (qmin 100 (baseAlign cfg.party cfg.pvi + (pub - 50) - risk))

/-- Terminal classification of the outcome checks run after each accepted
turn (bill_simulator.py lines 526–535, bill_simulator2.py lines 369–378). -/
inductive Outcome
  | fullVictory
  | costlyVictory
  | stalledBill
  | ongoing
deriving DecidableEq, BEq

/-- The outcome evaluator applied after a transition, in the source's
check order: progress ≥ 100 is checked first and yields Full or Costly
Victory by the reelection chance; otherwise established support below 20
stalls the bill; otherwise play continues. -/
def evalOutcome (progress : ℚ) (support : Option ℚ) (chance : ℚ) : Outcome :=
  if progress ≥ 100 then
    if chance ≥ 50 then Outcome.fullVictory else Outcome.costlyVictory
  else
    match support with
    | some v => if v < 20 then Outcome.stalledBill else Outcome.ongoing
    | none => Outcome.ongoing

/-- New chamber support in bill_simulator.py's submit handler
(lines 498–511): on the (in practice unreachable) `support is None`
branch, the rounded Democratic seat share minus 15 plus the delta; on the
live branch, the previous support plus the delta; both clamped to
[0, support_cap]. -/
def newSupport1 (cfg : Config) (s : GameState) (sc : ℤ) : ℚ :=
  match s.support with
  | none =>
      qmax 0 (qmin (support_cap cfg)
        (((pyRound ((cfg.dSeats : ℚ) / ((cfg.dSeats : ℚ) + (cfg.rSeats : ℚ)) * 100) : ℤ) : ℚ) - 15 + (sc : ℚ)))
  | some sup => qmax 0 (qmin (support_cap cfg) (sup + (sc : ℚ)))

/-- New public approval (identical in both variants): 50 plus the delta on
the first turn, otherwise previous plus delta, clamped to [0, 100]. -/
def newPublic (s : GameState) (pc : ℤ) : ℚ :=
  match s.support with
  | none => qmax 0 (qmin 100 (50 + (pc : ℚ)))
  | some _ => qmax 0 (qmin 100 (s.publicApproval + (pc : ℚ)))

/-- New chamber support in bill_simulator2.py's submit handler
(lines 350–355): first turn `35 + delta`, later turns previous plus
delta, clamped to [0, 100] (no party-share cap). -/
def newSupport2 (s : GameState) (sc : ℤ) : ℚ :=
  match s.support with
  | none => qmax 0 (qmin 100 ((35 : ℚ) + (sc : ℚ)))
  | some sup => qmax 0 (qmin 100 (sup + (sc : ℚ)))

/-- One accepted transition of bill_simulator.py (submit handler lines
498–539, given the four delta fields): update support, public approval,
progress (clamped [0,100]) and reelection risk (fresh absolute value
clamped [0,10]), recompute the reelection chance, append the trend row
and history entry, advance the turn, and set `game_over` per the outcome
checks. -/
def step1 (cfg : Config) (s : GameState) (action narrative : String) (sc pc cpc rr : ℤ) : GameState :=
  let sup' := newSupport1 cfg s sc
  let pub' := newPublic s pc
  let progress' := qmax 0 (qmin 100 (s.chamber_progress + (cpc : ℚ)))
  let risk' := qmax 0 (qmin 10 (rr : ℚ))
  let chance := calc_reelection_chance cfg pub' risk'
  let out := evalOutcome progress' (some sup') chance
  { turn := s.turn + 1
    support := some sup'
    publicApproval := pub'
    chamber_progress := progress'
    reelection_risk := risk'
    history := s.history ++ [(action, narrative)]
    trends := s.trends ++ [{ turn := s.turn, support := sup', publicApproval := pub',
                             reelection_risk := risk', reelection_chance := chance,
                             chamber_progress := progress' }]
    game_over := match out with
                 | Outcome.ongoing => s.game_over
                 | _ => true
    reconciliation_discussed := s.reconciliation_discussed }

/-- One accepted transition of bill_simulator2.py (submit handler lines
350–383): like `step1` but support is clamped to [0,100] with a constant
35 first-turn baseline, and reelection risk accumulates additively:
`reelection_risk += max(0, delta)`. -/
def step2 (cfg : Config) (s : GameState) (action narrative : String) (sc pc cpc rr : ℤ) : GameState :=
  let sup' := newSupport2 s sc
  let pub' := newPublic s pc
  let progress' := qmax 0 (qmin 100 (s.chamber_progress + (cpc : ℚ)))
  let risk' := s.reelection_risk + qmax 0 (rr : ℚ)
  let chance := calc_reelection_chance cfg pub' risk'
  let out := evalOutcome progress' (some sup') chance
  { turn := s.turn + 1
    support := some sup'
    publicApproval := pub'
    chamber_progress := progress'
    reelection_risk := risk'
    history := s.history ++ [(action, narrative)]
    trends := s.trends ++ [{ turn := s.turn, support := sup', publicApproval := pub',
                             reelection_risk := risk', reelection_chance := chance,
                             chamber_progress := progress' }]
    game_over := match out with
                 | Outcome.ongoing => s.game_over
                 | _ => true
    reconciliation_discussed := s.reconciliation_discussed }

/-- Python dict indexing `data[k]` in the submit handlers: the value, or a
`KeyError` escaping the turn-processing path when the key is absent. -/
def getInt (d : Dict) (k : String) : Except String ℤ :=
  match dictFind d k with
  | some v => Except.ok v
  | none => Except.error ("KeyError: " ++ k)

/-- The submit handlers read the four delta fields in source order
(`support_change`, `public_change`, `chamber_progress_change`,
`reelection_risk`); the first absent key raises `KeyError`.  On success
the pure transition `step` is applied. -/
def applyTurnWith (step : ℤ → ℤ → ℤ → ℤ → GameState) (d : Dict) : Except String GameState :=
  match getInt d "support_change" with
  | Except.error e => Except.error e
  | Except.ok sc =>
    match getInt d "public_change" with
    | Except.error e => Except.error e
    | Except.ok pc =>
      match getInt d "chamber_progress_change" with
      | Except.error e => Except.error e
      | Except.ok cpc =>
        match getInt d "reelection_risk" with
        | Except.error e => Except.error e
        | Except.ok rr => Except.ok (step sc pc cpc rr)

/-- Folding one delta record into the state, bill_simulator.py. -/
def applyTurn1 (cfg : Config) (s : GameState) (action narrative : String) (d : Dict) : Except String GameState :=
  applyTurnWith (step1 cfg s action narrative) d

/-- Folding one delta record into the state, bill_simulator2.py. -/
def applyTurn2 (cfg : Config) (s : GameState) (action narrative : String) (d : Dict) : Except String GameState :=
  applyTurnWith (step2 cfg s action narrative) d

/-- The submit-button handler of bill_simulator.py (lines 487–541): an
empty action only shows a warning and changes nothing; otherwise
`gpt_simulate` runs (its pre-call state setup followed by the call and
parse) and the delta record is folded into the state. -/
def submit1 (cfg : Config) (ld : String → Option Dict) (oracle : Except String String)
    (s : GameState) (action : String) : Except String GameState :=
  if action = "" then Except.ok s
  else
    let s1 := preSim cfg s action
    let nd := gptParse ld oracle
    applyTurn1 cfg s1 action nd.1 nd.2

/-- The submit-button handler of bill_simulator2.py (lines 345–385);
variant 2 has no pre-call state setup. -/
def submit2 (cfg : Config) (ld : String → Option Dict) (oracle : Except String String)
    (s : GameState) (action : String) : Except String GameState :=
  if action = "" then Except.ok s
  else
    let nd := gptParse ld oracle
    applyTurn2 cfg s action nd.1 nd.2

/-- One turn's inputs in a session: the action text, the `json.loads`
behaviour and the oracle call result for that turn. -/
structure SessionStep where
  action : String
  ld : String → Option Dict
  oracle : Except String String

/-- A sequence of submit-button presses of bill_simulator.py, threading
the session state; stops at the first escaping exception. -/
def runSession1 (cfg : Config) : List SessionStep → GameState → Except String GameState
  | [], s => Except.ok s
  | st :: rest, s =>
    match submit1 cfg st.ld st.oracle s st.action with
    | Except.error e => Except.error e
    | Except.ok s' => runSession1 cfg rest s'

/-- Modelled from the spec: the passage threshold the prompt of
bill_simulator.py communicates to the external oracle for its
support-zone rules.  The zone comparisons themselves are performed by the
LLM, not by repository code; the numbers come from the prompt text
(NUMERIC RULES item 1, lines 233–244: House 51%, Senate 60%, "If
reconciliation is being used in the Senate, use 51% instead of 60%") and
from `recon_note` (lines 197–201: "treat the Senate threshold as 51%"
once the flag is set). -/
def passageThreshold (cfg : Config) (flag : Bool) : ℕ :=
  match cfg.chamber with
  | Chamber.House => 51
  | Chamber.Senate => if flag then 51 else 60

/-- House configuration used by the concrete instances below:
D = 218, R = 217, Democrat player, EVEN district. -/
def cfgHouseD : Config :=
  { chamber := Chamber.House, party := Party.Dem, pvi := Pvi.EVEN, dSeats := 218, rSeats := 217 }

/-- Senate configuration used by the concrete instances below:
D = 51, R = 49, Democrat player, EVEN district. -/
def cfgSenD : Config :=
  { chamber := Chamber.Senate, party := Party.Dem, pvi := Pvi.EVEN, dSeats := 51, rSeats := 49 }

/-- The spec's alignment bonus table: +15 when the district lean favors
the player's party, +5 when it is "EVEN", −10 when it opposes.  This is
the comparison point for the claim about `calc_reelection_chance`. -/
def alignmentBonusSpec (p : Party) (v : Pvi) : ℚ :=
  match p, v with
  | Party.Dem, Pvi.D10 => 15
  | Party.Dem, Pvi.D5 => 15
  | Party.Rep, Pvi.R10 => 15
  | Party.Rep, Pvi.R5 => 15
  | _, Pvi.EVEN => 5
  | _, _ => -10

/-- Concrete `json.loads` behaviour yielding a record whose
`reelection_risk` field is 15. -/
def ldC1 : String → Option Dict := fun s =>
  if s = "\x7bJ\x7d" then
    some [("support_change", 0), ("public_change", 0),
          ("chamber_progress_change", 0), ("reelection_risk", 15)]
  else none

/-- Oracle response text embedding the record parsed by `ldC1`. -/
def txtC1 : String := "ok \x7bJ\x7d"

/-- Concrete `json.loads` behaviour yielding a decoded record that is
missing every expected field except `support_change`. -/
def ldC2 : String → Option Dict := fun s =>
  if s = "\x7bk\x7d" then some [("support_change", 1)] else none

/-- Oracle response text embedding the record parsed by `ldC2`. -/
def txtC2 : String := "act \x7bk\x7d"

/-- Concrete `json.loads` behaviour yielding a record with a support delta
of +30. -/
def ldC4 : String → Option Dict := fun s =>
  if s = "\x7bC4\x7d" then
    some [("support_change", 30), ("public_change", 0),
          ("chamber_progress_change", 0), ("reelection_risk", 0)]
  else none

/-- Oracle response text embedding the record parsed by `ldC4`. -/
def txtC4 : String := "big \x7bC4\x7d"

/-- Concrete `json.loads` behaviour yielding a record with a support delta
of +3 (the first-turn scenario of the spec's testable properties). -/
def ldC5 : String → Option Dict := fun s =>
  if s = "\x7bC5\x7d" then
    some [("support_change", 3), ("public_change", 0),
          ("chamber_progress_change", 0), ("reelection_risk", 0)]
  else none

/-- Oracle response text embedding the record parsed by `ldC5`. -/
def txtC5 : String := "Narrative \x7bC5\x7d"

/-- A concrete action text containing the bypass keyword. -/
def actC9 : String := "Use the Reconciliation process"

/-- `qmax` agrees with the lattice `max` on ℚ. -/
theorem qmax_eq (a b : ℚ) : qmax a b = max a b := by
  unfold qmax
  by_cases h : a ≤ b
  · rw [if_pos h, max_eq_right h]
  · rw [if_neg h, max_eq_left (le_of_not_le h)]

/-- `qmin` agrees with the lattice `min` on ℚ. -/
theorem qmin_eq (a b : ℚ) : qmin a b = min a b := by
  unfold qmin
  by_cases h : a ≤ b
  · rw [if_pos h, min_eq_left h]
  · rw [if_neg h, min_eq_right (le_of_not_le h)]

/-- A value clamped by `max(0, min(b, x))` lies in `[0, b]` whenever
`0 ≤ b`. -/
theorem clamp_mem (b x : ℚ) (hb : 0 ≤ b) :
    0 ≤ qmax 0 (qmin b x) ∧ qmax 0 (qmin b x) ≤ b := by
  simp only [qmax, qmin]
  split_ifs with h1 h2 <;> constructor <;> linarith

/-- The player's seat share is nonnegative. -/
theorem party_share_nonneg (cfg : Config) : 0 ≤ party_share cfg := by
  unfold party_share
  split_ifs <;> positivity

/-- The support cap is nonnegative. -/
theorem support_cap_nonneg (cfg : Config) : 0 ≤ support_cap cfg := by
  have h := party_share_nonneg cfg
  simp only [support_cap, qmin]
  split_ifs <;> linarith

/-- The support cap never exceeds 100. -/
theorem support_cap_le_100 (cfg : Config) : support_cap cfg ≤ 100 := by
  simp only [support_cap, qmin]
  split_ifs with h <;> linarith

/-- The updated chamber support of bill_simulator.py lies in
`[0, support_cap]` on both the first-turn and later-turn branches. -/
theorem newSupport1_mem (cfg : Config) (s : GameState) (sc : ℤ) :
    0 ≤ newSupport1 cfg s sc ∧ newSupport1 cfg s sc ≤ support_cap cfg := by
  cases hs : s.support <;> simp only [newSupport1, hs] <;>
    exact clamp_mem _ _ (support_cap_nonneg cfg)

/-- The updated chamber support of bill_simulator2.py lies in `[0, 100]`. -/
theorem newSupport2_mem (s : GameState) (sc : ℤ) :
    0 ≤ newSupport2 s sc ∧ newSupport2 s sc ≤ 100 := by
  cases hs : s.support <;> simp only [newSupport2, hs] <;>
    exact clamp_mem _ _ (by norm_num)

/-- The updated public approval lies in `[0, 100]`. -/
theorem newPublic_mem (s : GameState) (pc : ℤ) :
    0 ≤ newPublic s pc ∧ newPublic s pc ≤ 100 := by
  cases hs : s.support <;> simp only [newPublic, hs] <;>
    exact clamp_mem _ _ (by norm_num)

/-- Successful field extraction: an `Except.ok` result of the submit
handlers' field-reading chain pins down all four field values and the
resulting state. -/
theorem applyTurnWith_ok {step : ℤ → ℤ → ℤ → ℤ → GameState} {d : Dict} {s' : GameState}
    (h : applyTurnWith step d = Except.ok s') :
    ∃ sc pc cpc rr, dictFind d "support_change" = some sc ∧
      dictFind d "public_change" = some pc ∧
      dictFind d "chamber_progress_change" = some cpc ∧
      dictFind d "reelection_risk" = some rr ∧
      s' = step sc pc cpc rr := by
  cases h1 : dictFind d "support_change" with
  | none => simp [applyTurnWith, getInt, h1] at h
  | some sc =>
    cases h2 : dictFind d "public_change" with
    | none => simp [applyTurnWith, getInt, h1, h2] at h
    | some pc =>
      cases h3 : dictFind d "chamber_progress_change" with
      | none => simp [applyTurnWith, getInt, h1, h2, h3] at h
      | some cpc =>
        cases h4 : dictFind d "reelection_risk" with
        | none => simp [applyTurnWith, getInt, h1, h2, h3, h4] at h
        | some rr =>
          simp [applyTurnWith, getInt, h1, h2, h3, h4] at h
          exact ⟨sc, pc, cpc, rr, rfl, rfl, rfl, rfl, h.symm⟩

/-- A record missing any of the four expected fields makes the submit
handlers' field-reading chain raise a `KeyError`. -/
theorem applyTurnWith_err (step : ℤ → ℤ → ℤ → ℤ → GameState) (d : Dict)
    (hmiss : dictFind d "support_change" = none ∨ dictFind d "public_change" = none ∨
      dictFind d "chamber_progress_change" = none ∨ dictFind d "reelection_risk" = none) :
    ∃ k, applyTurnWith step d = Except.error ("KeyError: " ++ k) := by
  cases h1 : dictFind d "support_change" with
  | none => exact ⟨"support_change", by simp [applyTurnWith, getInt, h1]⟩
  | some sc =>
    cases h2 : dictFind d "public_change" with
    | none => exact ⟨"public_change", by simp [applyTurnWith, getInt, h1, h2]⟩
    | some pc =>
      cases h3 : dictFind d "chamber_progress_change" with
      | none => exact ⟨"chamber_progress_change", by simp [applyTurnWith, getInt, h1, h2, h3]⟩
      | some cpc =>
        cases h4 : dictFind d "reelection_risk" with
        | none => exact ⟨"reelection_risk", by simp [applyTurnWith, getInt, h1, h2, h3, h4]⟩
        | some rr =>
          rcases hmiss with h | h | h | h
          · rw [h] at h1; cases h1
          · rw [h] at h2; cases h2
          · rw [h] at h3; cases h3
          · rw [h] at h4; cases h4

/-- The first-turn support baseline of bill_simulator.py at the
House 218 D / 217 R Democrat configuration is 38
(= round(clamp(218/435·100 − 12, 20, 60))). -/
theorem baseline38 : baselineSupport cfgHouseD = 38 := by
  show ((pyRound (qmax 20 (qmin ((218:ℚ)/435*100 - 12) 60)) : ℤ) : ℚ) = 38
  have h1 : qmin ((218:ℚ)/435*100 - 12) 60 = (218:ℚ)/435*100 - 12 := by
    unfold qmin; rw [if_pos (by norm_num)]
  have h2 : qmax 20 ((218:ℚ)/435*100 - 12) = (218:ℚ)/435*100 - 12 := by
    unfold qmax; rw [if_pos (by norm_num)]
  rw [h1, h2]
  have hf : ⌊((218:ℚ)/435*100 - 12)⌋ = 38 := by
    rw [Int.floor_eq_iff]
    norm_num
  unfold pyRound
  rw [hf]
  rw [if_pos (by norm_num)]
  norm_num

/-- The support cap at the House 218 D / 217 R Democrat configuration is
218/435·100 + 5 = 4795/87 ≈ 55.11. -/
theorem supcap_houseD : support_cap cfgHouseD = 4795/87 := by
  have hps : party_share cfgHouseD = 4360/87 := by
    unfold party_share cfgHouseD
    norm_num
  unfold support_cap
  rw [hps]
  unfold qmin
  rw [if_neg (by norm_num)]
  norm_num

/-- The base of the reelection-chance computation equals 50 plus the
spec's alignment-bonus table. -/
theorem baseEq (p : Party) (v : Pvi) : baseAlign p v = 50 + alignmentBonusSpec p v := by
  cases p <;> cases v <;> first
    | rfl
    | (unfold baseAlign
       rw [if_neg (by decide), if_neg (by decide)]
       norm_num [alignmentBonusSpec])

/-- C1 counterexample: in bill_simulator2.py the stored reelection risk
after the very first accepted turn with an oracle record carrying
`reelection_risk = 15` is 15 — not `clamp(15, 0, 10) = 10`, and not
within `[0, 10]` — because line 361 accumulates `+= max(0, value)`
instead of storing the clamped fresh value. -/
theorem C1_risk_accumulates_v2_cex :
    Except.map (fun t => t.reelection_risk)
        (submit2 cfgHouseD ldC1 (Except.ok txtC1) initState "act") = Except.ok (15 : ℚ)
    ∧ ¬ ((15 : ℚ) ≤ 10)
    ∧ (15 : ℚ) ≠ max 0 (min 10 ((15 : ℤ) : ℚ)) := by
  refine ⟨?_, by norm_num, ?_⟩
  · have h : submit2 cfgHouseD ldC1 (Except.ok txtC1) initState "act"
        = Except.ok (step2 cfgHouseD initState "act" txtC1 0 0 0 15) := rfl
    rw [h]
    show Except.ok (initState.reelection_risk + qmax 0 ((15 : ℤ) : ℚ)) = Except.ok (15 : ℚ)
    have h2 : qmax 0 ((15 : ℤ) : ℚ) = 15 := by
      unfold qmax; rw [if_pos (by norm_num)]; norm_num
    rw [h2]
    norm_num [initState]
  · push_cast
    rw [min_eq_left (by norm_num : (10:ℚ) ≤ 15), max_eq_right (by norm_num : (0:ℚ) ≤ 10)]
    norm_num

/-- C1 (amended to bill_simulator.py): after every accepted transition of
variant 1, the stored reelection risk equals `clamp(record_value, 0, 10)`
— a fresh absolute value recomputed from this turn's record alone — and
therefore lies in `[0, 10]`. -/
theorem C1_risk_fresh_clamped_v1 (cfg : Config) (s : GameState) (a n : String) (d : Dict)
    (t : GameState) (rr : ℤ)
    (h : applyTurn1 cfg s a n d = Except.ok t)
    (hrr : dictFind d "reelection_risk" = some rr) :
    t.reelection_risk = max 0 (min 10 (rr : ℚ))
    ∧ 0 ≤ t.reelection_risk ∧ t.reelection_risk ≤ 10 := by
  obtain ⟨sc, pc, cpc, rr', _, _, _, h4, rfl⟩ := applyTurnWith_ok h
  rw [hrr] at h4
  injection h4 with he
  subst he
  refine ⟨?_, ?_, ?_⟩
  · show qmax 0 (qmin 10 (rr : ℚ)) = max 0 (min 10 (rr : ℚ))
    rw [qmax_eq, qmin_eq]
  · exact (clamp_mem 10 (rr : ℚ) (by norm_num)).1
  · exact (clamp_mem 10 (rr : ℚ) (by norm_num)).2

/-- C1 witness: the amended statement applied at a concrete accepted turn
(zero delta record, fresh House session). -/
theorem C1_risk_fresh_clamped_v1_witness :
    (step1 cfgHouseD initState "a" "n" 0 0 0 0).reelection_risk = max 0 (min 10 ((0 : ℤ) : ℚ))
    ∧ 0 ≤ (step1 cfgHouseD initState "a" "n" 0 0 0 0).reelection_risk
    ∧ (step1 cfgHouseD initState "a" "n" 0 0 0 0).reelection_risk ≤ 10 :=
  C1_risk_fresh_clamped_v1 cfgHouseD initState "a" "n" zeroDelta
    (step1 cfgHouseD initState "a" "n" 0 0 0 0) 0 rfl rfl

/-- C2 counterexample: an oracle response whose embedded braces decode to
a record containing only `support_change` does NOT complete the turn with
the zero delta; the submit handler's `data["public_change"]` access
raises an uncaught `KeyError`. -/
theorem C2_missing_field_cex :
    submit1 cfgHouseD ldC2 (Except.ok txtC2) initState "go"
      = Except.error "KeyError: public_change" := rfl

/-- C2 (amended): the all-zero substitution happens only when locating or
decoding the embedded record fails; whenever the record decodes
successfully but lacks any of the four expected fields, both variants'
submit handlers raise a `KeyError` out of the turn-processing path and
the turn does not complete. -/
theorem C2_missing_field_keyerror (cfg : Config) (ld : String → Option Dict)
    (txt : String) (cs : List Char) (d : Dict) (s : GameState) (a : String)
    (ha : ¬ a = "")
    (hx : extractJson txt.toList = some cs)
    (hld : ld (String.mk cs) = some d)
    (hmiss : dictFind d "support_change" = none ∨ dictFind d "public_change" = none ∨
      dictFind d "chamber_progress_change" = none ∨ dictFind d "reelection_risk" = none) :
    (∃ k, submit1 cfg ld (Except.ok txt) s a = Except.error ("KeyError: " ++ k))
    ∧ (∃ k, submit2 cfg ld (Except.ok txt) s a = Except.error ("KeyError: " ++ k)) := by
  have hx' : extractJson txt.data = some cs := hx
  have hp : gptParse ld (Except.ok txt) = (txt, d) := by
    simp [gptParse, hx', hld]
  constructor
  · obtain ⟨k, hk⟩ := applyTurnWith_err (step1 cfg (preSim cfg s a) a txt) d hmiss
    refine ⟨k, ?_⟩
    simp only [submit1, ha, if_false, hp, applyTurn1]
    exact hk
  · obtain ⟨k, hk⟩ := applyTurnWith_err (step2 cfg s a txt) d hmiss
    refine ⟨k, ?_⟩
    simp only [submit2, ha, if_false, hp, applyTurn2]
    exact hk

/-- C2 witness: the amended statement applied at the concrete
missing-field record of `ldC2`. -/
theorem C2_missing_field_keyerror_witness :
    (∃ k, submit1 cfgHouseD ldC2 (Except.ok txtC2) initState "go"
        = Except.error ("KeyError: " ++ k))
    ∧ (∃ k, submit2 cfgHouseD ldC2 (Except.ok txtC2) initState "go"
        = Except.error ("KeyError: " ++ k)) :=
  C2_missing_field_keyerror cfgHouseD ldC2 txtC2 (String.toList "\x7bk\x7d")
    [("support_change", 1)] initState "go" (by decide) (by decide) rfl
    (Or.inr (Or.inl rfl))

/-- C3: whenever the response text has no decodable record between its
first opening and last closing brace (no braces at all, or `json.loads`
failing on the slice), `gpt_simulate` returns the raw text with the
all-zero delta; and when the oracle call itself raises, it returns the
error placeholder with the all-zero delta.  The function is pure, so
repeated identical malformed input yields the same all-zero delta. -/
theorem C3_zero_delta_on_failure (ld : String → Option Dict) (txt e : String) :
    (extractJson txt.toList = none → gptParse ld (Except.ok txt) = (txt, zeroDelta))
    ∧ (∀ cs, extractJson txt.toList = some cs → ld (String.mk cs) = none →
        gptParse ld (Except.ok txt) = (txt, zeroDelta))
    ∧ gptParse ld (Except.error e) = ("⚠️ GPT error: " ++ e, zeroDelta) := by
  refine ⟨?_, ?_, rfl⟩
  · intro h
    have h' : extractJson txt.data = none := h
    simp [gptParse, h']
  · intro cs h1 h2
    have h1' : extractJson txt.data = some cs := h1
    simp [gptParse, h1', h2]

/-- C3 witness: the statement applied at a brace-free response, a response
whose braced slice fails to decode, and a failing oracle call. -/
theorem C3_zero_delta_on_failure_witness :
    gptParse (fun _ => none) (Except.ok "no record here") = ("no record here", zeroDelta)
    ∧ gptParse (fun _ => none) (Except.ok "x \x7by\x7d z") = ("x \x7by\x7d z", zeroDelta)
    ∧ gptParse (fun _ => none) (Except.error "boom") = ("⚠️ GPT error: " ++ "boom", zeroDelta) :=
  ⟨(C3_zero_delta_on_failure (fun _ => none) "no record here" "boom").1 (by decide),
   (C3_zero_delta_on_failure (fun _ => none) "x \x7by\x7d z" "boom").2.1
     (String.toList "\x7by\x7d") (by decide) rfl,
   (C3_zero_delta_on_failure (fun _ => none) "x \x7by\x7d z" "boom").2.2⟩

/-- C4 counterexample: in bill_simulator2.py a single accepted first turn
with `support_change = +30` stores support 65, which exceeds the claimed
cap `min(100, party_seat_share + 5) = 4795/87 ≈ 55.11` of the
House 218 D / 217 R Democrat configuration — variant 2 clamps support to
[0, 100] only (lines 350–355). -/
theorem C4_support_cap_violated_v2_cex :
    Except.map (fun t => t.support)
        (submit2 cfgHouseD ldC4 (Except.ok txtC4) initState "act") = Except.ok (some (65 : ℚ))
    ∧ ¬ ((65 : ℚ) ≤ support_cap cfgHouseD) := by
  constructor
  · have h : submit2 cfgHouseD ldC4 (Except.ok txtC4) initState "act"
        = Except.ok (step2 cfgHouseD initState "act" txtC4 30 0 0 0) := rfl
    rw [h]
    show Except.ok (some (qmax 0 (qmin 100 ((35:ℚ) + ((30:ℤ) : ℚ))))) = Except.ok (some (65 : ℚ))
    have h1 : qmin (100:ℚ) ((35:ℚ) + ((30:ℤ) : ℚ)) = 65 := by
      unfold qmin
      rw [if_neg (by push_cast; norm_num)]
      push_cast; norm_num
    rw [h1]
    have h2 : qmax 0 (65:ℚ) = 65 := by
      unfold qmax; rw [if_pos (by norm_num)]
    rw [h2]
  · rw [supcap_houseD]
    norm_num

/-- C4 (amended to bill_simulator.py): after every accepted transition of
variant 1, for every integer support delta, the stored support lies in
`[0, support_cap]` with `support_cap = min(100, party_seat_share + 5)`. -/
theorem C4_support_capped_v1 (cfg : Config) (s : GameState) (a n : String) (d : Dict)
    (t : GameState)
    (h : applyTurn1 cfg s a n d = Except.ok t) :
    ∃ v, t.support = some v ∧ 0 ≤ v ∧ v ≤ support_cap cfg := by
  obtain ⟨sc, pc, cpc, rr, _, _, _, _, rfl⟩ := applyTurnWith_ok h
  exact ⟨newSupport1 cfg s sc, rfl, (newSupport1_mem cfg s sc).1, (newSupport1_mem cfg s sc).2⟩

/-- C4 witness: the amended statement applied at a concrete accepted turn
(zero delta record, fresh House session). -/
theorem C4_support_capped_v1_witness :
    ∃ v, (step1 cfgHouseD initState "a" "n" 0 0 0 0).support = some v
      ∧ 0 ≤ v ∧ v ≤ support_cap cfgHouseD :=
  C4_support_capped_v1 cfgHouseD initState "a" "n" zeroDelta
    (step1 cfgHouseD initState "a" "n" 0 0 0 0) rfl

/-- C5: on the first accepted turn at House 218 D / 217 R, Democrat,
first delta `support_change = +3`, bill_simulator.py stores support 41,
which equals `clamp(baseline + 3, 0, support_cap)` with the baseline 38
produced by the source's offset formula (seat share 50.11 − 12, banded to
[20, 60], rounded); bill_simulator2.py stores 38 = clamp(35 + 3, 0, 100)
from its constant baseline 35 (≈ seat share − 15). -/
theorem C5_first_turn_baseline :
    (Except.map (fun t => t.support)
        (submit1 cfgHouseD ldC5 (Except.ok txtC5) initState "Introduce the bill")
        = Except.ok (some (41 : ℚ))
      ∧ (41 : ℚ) = max 0 (min (support_cap cfgHouseD) (baselineSupport cfgHouseD + 3)))
    ∧ (Except.map (fun t => t.support)
        (submit2 cfgHouseD ldC5 (Except.ok txtC5) initState "Introduce the bill")
        = Except.ok (some (38 : ℚ))
      ∧ (38 : ℚ) = max 0 (min 100 ((35 : ℚ) + 3))) := by
  refine ⟨⟨?_, ?_⟩, ?_, ?_⟩
  · have h : submit1 cfgHouseD ldC5 (Except.ok txtC5) initState "Introduce the bill"
        = Except.ok (step1 cfgHouseD (preSim cfgHouseD initState "Introduce the bill")
            "Introduce the bill" txtC5 3 0 0 0) := rfl
    rw [h]
    show Except.ok (some (qmax 0 (qmin (support_cap cfgHouseD)
          (baselineSupport cfgHouseD + ((3:ℤ) : ℚ))))) = Except.ok (some (41 : ℚ))
    rw [baseline38, supcap_houseD]
    have h1 : qmin ((4795:ℚ)/87) ((38:ℚ) + ((3:ℤ) : ℚ)) = 41 := by
      unfold qmin
      rw [if_neg (by push_cast; norm_num)]
      push_cast; norm_num
    rw [h1]
    have h2 : qmax 0 (41:ℚ) = 41 := by
      unfold qmax; rw [if_pos (by norm_num)]
    rw [h2]
  · rw [baseline38, supcap_houseD]
    rw [min_eq_right (by norm_num : (38:ℚ) + 3 ≤ 4795/87),
        max_eq_right (by norm_num : (0:ℚ) ≤ 38 + 3)]
    norm_num
  · have h : submit2 cfgHouseD ldC5 (Except.ok txtC5) initState "Introduce the bill"
        = Except.ok (step2 cfgHouseD initState "Introduce the bill" txtC5 3 0 0 0) := rfl
    rw [h]
    show Except.ok (some (qmax 0 (qmin 100 ((35:ℚ) + ((3:ℤ) : ℚ))))) = Except.ok (some (38 : ℚ))
    have h1 : qmin (100:ℚ) ((35:ℚ) + ((3:ℤ) : ℚ)) = 38 := by
      unfold qmin
      rw [if_neg (by push_cast; norm_num)]
      push_cast; norm_num
    rw [h1]
    have h2 : qmax 0 (38:ℚ) = 38 := by
      unfold qmax; rw [if_pos (by norm_num)]
    rw [h2]
  · rw [min_eq_right (by norm_num : (35:ℚ) + 3 ≤ 100),
        max_eq_right (by norm_num : (0:ℚ) ≤ 35 + 3)]
    norm_num

/-- C6: after every accepted transition of either variant, public
approval and chamber progress lie in [0, 100], and the stored support is
an established value in [0, 100], regardless of the magnitude or sign of
the oracle record's deltas. -/
theorem C6_percent_fields_bounded (cfg : Config) (s : GameState) (a n : String) (d : Dict)
    (t1 t2 : GameState) :
    (applyTurn1 cfg s a n d = Except.ok t1 →
      (0 ≤ t1.publicApproval ∧ t1.publicApproval ≤ 100)
      ∧ (0 ≤ t1.chamber_progress ∧ t1.chamber_progress ≤ 100)
      ∧ ∃ v, t1.support = some v ∧ 0 ≤ v ∧ v ≤ 100)
    ∧ (applyTurn2 cfg s a n d = Except.ok t2 →
      (0 ≤ t2.publicApproval ∧ t2.publicApproval ≤ 100)
      ∧ (0 ≤ t2.chamber_progress ∧ t2.chamber_progress ≤ 100)
      ∧ ∃ v, t2.support = some v ∧ 0 ≤ v ∧ v ≤ 100) := by
  constructor
  · intro h
    obtain ⟨sc, pc, cpc, rr, _, _, _, _, rfl⟩ := applyTurnWith_ok h
    refine ⟨newPublic_mem s pc, clamp_mem 100 _ (by norm_num), ?_⟩
    exact ⟨newSupport1 cfg s sc, rfl, (newSupport1_mem cfg s sc).1,
      le_trans (newSupport1_mem cfg s sc).2 (support_cap_le_100 cfg)⟩
  · intro h
    obtain ⟨sc, pc, cpc, rr, _, _, _, _, rfl⟩ := applyTurnWith_ok h
    refine ⟨newPublic_mem s pc, clamp_mem 100 _ (by norm_num), ?_⟩
    exact ⟨newSupport2 s sc, rfl, (newSupport2_mem s sc).1, (newSupport2_mem s sc).2⟩

/-- C6 witness: the statement applied at a concrete accepted turn of each
variant (zero delta record, fresh House session). -/
theorem C6_percent_fields_bounded_witness :
    ((0 ≤ (step1 cfgHouseD initState "a" "n" 0 0 0 0).publicApproval
      ∧ (step1 cfgHouseD initState "a" "n" 0 0 0 0).publicApproval ≤ 100)
     ∧ (0 ≤ (step1 cfgHouseD initState "a" "n" 0 0 0 0).chamber_progress
      ∧ (step1 cfgHouseD initState "a" "n" 0 0 0 0).chamber_progress ≤ 100)
     ∧ ∃ v, (step1 cfgHouseD initState "a" "n" 0 0 0 0).support = some v ∧ 0 ≤ v ∧ v ≤ 100)
    ∧ ((0 ≤ (step2 cfgHouseD initState "a" "n" 0 0 0 0).publicApproval
      ∧ (step2 cfgHouseD initState "a" "n" 0 0 0 0).publicApproval ≤ 100)
     ∧ (0 ≤ (step2 cfgHouseD initState "a" "n" 0 0 0 0).chamber_progress
      ∧ (step2 cfgHouseD initState "a" "n" 0 0 0 0).chamber_progress ≤ 100)
     ∧ ∃ v, (step2 cfgHouseD initState "a" "n" 0 0 0 0).support = some v ∧ 0 ≤ v ∧ v ≤ 100) :=
  ⟨(C6_percent_fields_bounded cfgHouseD initState "a" "n" zeroDelta
      (step1 cfgHouseD initState "a" "n" 0 0 0 0)
      (step2 cfgHouseD initState "a" "n" 0 0 0 0)).1 rfl,
   (C6_percent_fields_bounded cfgHouseD initState "a" "n" zeroDelta
      (step1 cfgHouseD initState "a" "n" 0 0 0 0)
      (step2 cfgHouseD initState "a" "n" 0 0 0 0)).2 rfl⟩

/-- C7: for every configuration and state, the derived reelection chance
equals `clamp(50 + alignment_bonus + (public − 50) − risk, 0, 100)` with
the spec's bonus table (+15 favoring lean, +5 EVEN, −10 opposing); in
particular, with public approval 50, risk 0 and an EVEN lean the result
is exactly 55. -/
theorem C7_reelection_chance_formula :
    (∀ (cfg : Config) (pub risk : ℚ),
      calc_reelection_chance cfg pub risk
        = max 0 (min 100 (50 + alignmentBonusSpec cfg.party cfg.pvi + (pub - 50) - risk)))
    ∧ calc_reelection_chance cfgHouseD 50 0 = 55 := by
  constructor
  · intro cfg pub risk
    unfold calc_reelection_chance
    rw [qmax_eq, qmin_eq, baseEq]
  · unfold calc_reelection_chance
    rw [show baseAlign cfgHouseD.party cfgHouseD.pvi = (50:ℚ) + 5 from rfl]
    unfold qmin
    rw [if_neg (by norm_num)]
    unfold qmax
    rw [if_pos (by norm_num)]
    norm_num

/-- C8: whenever both the victory condition (progress ≥ 100) and the
collapse condition (support < 20) hold after a transition, the outcome
evaluator classifies the turn as Full Victory (chance ≥ 50) or Costly
Victory (chance < 50), never as a Stalled Bill, because the progress
check is evaluated first. -/
theorem C8_victory_priority (p sup c : ℚ) (h1 : p ≥ 100) (h2 : sup < 20) :
    evalOutcome p (some sup) c
      = (if c ≥ 50 then Outcome.fullVictory else Outcome.costlyVictory)
    ∧ evalOutcome p (some sup) c ≠ Outcome.stalledBill := by
  have he : evalOutcome p (some sup) c
      = if c ≥ 50 then Outcome.fullVictory else Outcome.costlyVictory := by
    unfold evalOutcome
    rw [if_pos h1]
  refine ⟨he, ?_⟩
  rw [he]
  by_cases hc : c ≥ 50
  · rw [if_pos hc]; simp
  · rw [if_neg hc]; simp

/-- C8 witness: the statement applied at progress 100, support 0,
chance 60. -/
theorem C8_victory_priority_witness :
    evalOutcome 100 (some 0) 60
      = (if (60:ℚ) ≥ 50 then Outcome.fullVictory else Outcome.costlyVictory)
    ∧ evalOutcome 100 (some 0) 60 ≠ Outcome.stalledBill :=
  C8_victory_priority 100 0 60 (by norm_num) (by norm_num)

/-- The pre-call state setup leaves the reconciliation flag exactly as
`updateRecon` prescribes. -/
theorem preSim_flag (cfg : Config) (s : GameState) (a : String) :
    (preSim cfg s a).reconciliation_discussed = updateRecon s.reconciliation_discussed a := by
  unfold preSim
  cases hs : s.support <;> simp [hs]

/-- Once true, the reconciliation flag survives any further action. -/
theorem updateRecon_true (a : String) : updateRecon true a = true := by
  unfold updateRecon
  split <;> rfl

/-- An action containing the keyword sets the reconciliation flag. -/
theorem updateRecon_keyword {f : Bool} {a : String}
    (h : strContains (pyLower a) "reconciliation" = true) : updateRecon f a = true := by
  unfold updateRecon
  rw [if_pos h]

/-- The pure transition of variant 1 never touches the reconciliation
flag. -/
theorem step1_flag (cfg : Config) (s : GameState) (a n : String) (sc pc cpc rr : ℤ) :
    (step1 cfg s a n sc pc cpc rr).reconciliation_discussed = s.reconciliation_discussed := rfl

/-- On any accepted submit of variant 1, the new flag is the
`updateRecon` of the old one, except that an empty action changes
nothing. -/
theorem submit1_ok_flag {cfg : Config} {ld : String → Option Dict}
    {oracle : Except String String} {s : GameState} {a : String} {s' : GameState}
    (h : submit1 cfg ld oracle s a = Except.ok s') :
    s'.reconciliation_discussed = updateRecon s.reconciliation_discussed a
    ∨ (a = "" ∧ s' = s) := by
  by_cases ha : a = ""
  · unfold submit1 at h
    rw [if_pos ha] at h
    cases h
    exact Or.inr ⟨ha, rfl⟩
  · unfold submit1 at h
    rw [if_neg ha] at h
    left
    obtain ⟨sc, pc, cpc, rr, _, _, _, _, rfl⟩ := applyTurnWith_ok h
    rw [step1_flag, preSim_flag]

/-- An accepted submit preserves a set reconciliation flag. -/
theorem submit1_flag_mono {cfg : Config} {ld : String → Option Dict}
    {oracle : Except String String} {s : GameState} {a : String} {s' : GameState}
    (h : submit1 cfg ld oracle s a = Except.ok s')
    (hf : s.reconciliation_discussed = true) : s'.reconciliation_discussed = true := by
  rcases submit1_ok_flag h with h1 | ⟨_, rfl⟩
  · rw [h1, hf, updateRecon_true]
  · exact hf

/-- An accepted submit whose action contains the keyword sets the
reconciliation flag. -/
theorem submit1_flag_keyword {cfg : Config} {ld : String → Option Dict}
    {oracle : Except String String} {s : GameState} {a : String} {s' : GameState}
    (hk : strContains (pyLower a) "reconciliation" = true)
    (h : submit1 cfg ld oracle s a = Except.ok s') : s'.reconciliation_discussed = true := by
  rcases submit1_ok_flag h with h1 | ⟨ha, rfl⟩
  · rw [h1]
    exact updateRecon_keyword hk
  · rw [ha] at hk
    exact absurd hk (by decide)

/-- A whole session of accepted submits preserves a set reconciliation
flag. -/
theorem runSession1_flag_mono (cfg : Config) :
    ∀ (steps : List SessionStep) (s s' : GameState),
      runSession1 cfg steps s = Except.ok s' →
      s.reconciliation_discussed = true → s'.reconciliation_discussed = true := by
  intro steps
  induction steps with
  | nil =>
    intro s s' h hf
    unfold runSession1 at h
    cases h
    exact hf
  | cons st rest ih =>
    intro s s' h hf
    unfold runSession1 at h
    cases hsub : submit1 cfg st.ld st.oracle s st.action with
    | error e => rw [hsub] at h; simp at h
    | ok s1 =>
      rw [hsub] at h
      exact ih s1 s' h (submit1_flag_mono hsub hf)

/-- Once a session of variant 1 has processed an action containing the
keyword, every later successful state carries the flag. -/
theorem runSession1_keyword (cfg : Config) (a : String) (ld : String → Option Dict)
    (oracle : Except String String)
    (hk : strContains (pyLower a) "reconciliation" = true) :
    ∀ (pre post : List SessionStep) (s s' : GameState),
      runSession1 cfg (pre ++ { action := a, ld := ld, oracle := oracle } :: post) s
        = Except.ok s' →
      s'.reconciliation_discussed = true := by
  intro pre
  induction pre with
  | nil =>
    intro post s s' h
    rw [List.nil_append] at h
    unfold runSession1 at h
    cases hsub : submit1 cfg ld oracle s a with
    | error e => rw [hsub] at h; simp at h
    | ok s1 =>
      rw [hsub] at h
      exact runSession1_flag_mono cfg post s1 s' h (submit1_flag_keyword hk hsub)
  | cons st rest ih =>
    intro post s s' h
    rw [List.cons_append] at h
    unfold runSession1 at h
    cases hsub : submit1 cfg st.ld st.oracle s st.action with
    | error e => rw [hsub] at h; simp at h
    | ok s1 =>
      rw [hsub] at h
      exact ih post s1 s' h

/-- C9: in every variant-1 session in which some accepted action contains
the bypass keyword "reconciliation" (case-insensitively), the
procedural-bypass flag is true in every subsequent successful state — no
later action ever resets it — and while it is set, the Senate passage
threshold communicated to the oracle's zone checks is 51 instead of the
default 60. -/
theorem C9_recon_flag_persists (cfg : Config) (pre post : List SessionStep) (a : String)
    (ld : String → Option Dict) (oracle : Except String String) (s s' : GameState)
    (hcs : cfg.chamber = Chamber.Senate)
    (hk : strContains (pyLower a) "reconciliation" = true)
    (h : runSession1 cfg (pre ++ { action := a, ld := ld, oracle := oracle } :: post) s
        = Except.ok s') :
    s'.reconciliation_discussed = true
    ∧ passageThreshold cfg s'.reconciliation_discussed = 51
    ∧ passageThreshold cfg false = 60 := by
  have hflag := runSession1_keyword cfg a ld oracle hk pre post s s' h
  refine ⟨hflag, ?_, ?_⟩
  · rw [hflag]
    simp [passageThreshold, hcs]
  · simp [passageThreshold, hcs]

/-- C9 witness: the statement applied to the one-turn session whose
action is `actC9` (an oracle response with no parsable record, so the
turn advances with the zero delta). -/
theorem C9_recon_flag_persists_witness :
    (step1 cfgSenD (preSim cfgSenD initState actC9) actC9 "hello" 0 0 0 0).reconciliation_discussed
      = true
    ∧ passageThreshold cfgSenD
        (step1 cfgSenD (preSim cfgSenD initState actC9) actC9 "hello" 0 0 0 0).reconciliation_discussed
      = 51
    ∧ passageThreshold cfgSenD false = 60 :=
  C9_recon_flag_persists cfgSenD [] [] actC9 (fun _ => none) (Except.ok "hello") initState
    (step1 cfgSenD (preSim cfgSenD initState actC9) actC9 "hello" 0 0 0 0)
    rfl (by decide) rfl

/-- C10: submitting with an empty action string performs no transition in
either variant: the session state is returned unchanged (every field,
including turn, support, histories and the bypass flag), for every
possible oracle behaviour — so no oracle call can influence the result
and the turn is not consumed. -/
theorem C10_empty_action_noop (cfg : Config) (ld : String → Option Dict)
    (oracle : Except String String) (s : GameState) :
    submit1 cfg ld oracle s "" = Except.ok s ∧ submit2 cfg ld oracle s "" = Except.ok s :=
  ⟨rfl, rfl⟩
